import Mathlib

/-!
Shallow embedding of the vdi-dump OCR worker pipeline.

Sources embedded:
- `src/GeminiAsyncOCR.py` — `GeminiAsyncOCR.run` and
  `GeminiAsyncOCR._process_candidate`: chunked OCR over the parts produced
  by the external PDF splitter (the splitter itself is an external
  collaborator, modelled as an oracle from the page bound to a split outcome).
- `src/worker.py` — `process_job` (the per-message job lifecycle) and the
  body of the `main` polling loop.
- `src/queue_service.py` — `StorageQueueService.delete_message`.

External effects (blob download, the per-chunk model call, the splitter,
timestamps) are parameters of the embedded functions: each attempt is run
against an environment describing what those collaborators do.  Exceptions
are modelled explicitly: a Python expression that can raise is embedded as a
value of an outcome type, and an `except` clause is a `match` on it.
-/

namespace VdiDump

/-! ## Data model (src/worker.py usage of the job record, spec §3) -/

/-- `JobStatus` values used by `src/worker.py` (`QUEUED`, `PROCESSING`,
`COMPLETED`, `FAILED`). -/
inductive JobStatus
  | queued
  | processing
  | completed
  | failed
deriving DecidableEq

/-- `PartOcrResult` as constructed by `GeminiAsyncOCR._process_candidate`
(`part_number`, `text`, `char_count`, `token_count`). -/
structure PartOcrResult where
  part_number : Nat
  text : String
  char_count : Nat
  token_count : Nat
deriving DecidableEq

/-- The value stored in the job record's `final_text` field.  Python is
dynamically typed: `worker.py` line 69 assigns `ocr_result`, which is the
`(part_results, total_tokens)` tuple returned by `GeminiAsyncOCR.run`, so the
field can hold a string, that pair, or the initial null. -/
inductive FinalTextVal
  | nullV
  | str (s : String)
  | pair (results : List PartOcrResult) (total_tokens : Nat)
deriving DecidableEq

/-- The job record as read and mutated by `src/worker.py`
(fields `status`, `retry_count`, `pages_per_part`, `error_log`,
`final_text`, `updated_at`; `id` is the queue message content). -/
structure Job where
  id : String
  status : JobStatus
  retry_count : Nat
  pages_per_part : Nat
  error_log : List String
  final_text : FinalTextVal
  updated_at : Nat
deriving DecidableEq

/-! ## GeminiAsyncOCR (src/GeminiAsyncOCR.py) -/

/-- Finish reason of a response candidate: `STOP` versus any other reason
(`_process_candidate` only distinguishes `candidate.finish_reason !=
FinishReason.STOP`). -/
inductive FinishReason
  | stop
  | other
deriving DecidableEq

/-- One part of a candidate's content (`candidate.content.parts[i]`); its
`text` attribute may be `None` (the code writes `parts[0].text or ""`). -/
structure ContentPart where
  text : Option String
deriving DecidableEq

/-- `candidate.content`: may be `None`, else carries a list of parts. -/
structure Content where
  parts : List ContentPart
deriving DecidableEq

/-- A response candidate as consumed by `_process_candidate`.
`extract_raises` models the `except` path of the guarded partial-text
retrieval (Python attribute access on the dynamic SDK objects can raise;
the code wraps the retrieval in `try/except`). -/
structure Candidate where
  finish_reason : FinishReason
  content : Option Content
  text : String
  extract_raises : Bool
deriving DecidableEq

/-- A `GenerateContentResponse` as consumed by `run` and
`_process_candidate`: the candidate list and
`usage_metadata.total_token_count`. -/
structure GenResponse where
  candidates : List Candidate
  usage_total_token_count : Nat
deriving DecidableEq

/-- Outcome of one `client.models.generate_content` call in `run`'s loop:
the call either raises (network/service error) or returns a response. -/
inductive ChunkCall
  | raises
  | returns (r : GenResponse)
deriving DecidableEq

/-- Outcome of `split_pdf_by_page_count` (external splitter): it either
raises, or returns the ordered list of parts; for each part we record what
the subsequent model call for that part does. -/
inductive SplitOutcome
  | raises
  | parts (chunks : List ChunkCall)
deriving DecidableEq

/-- `GeminiAsyncOCR._process_candidate(response, part_number)`:
extracts the text of `response.candidates[0]`, salvaging partial text on an
abnormal finish reason; returns `none` when that salvage attempt raises.
`run` only calls this when `response.candidates` is non-empty. -/
def processCandidate (response : GenResponse) (part_number : Nat) :
    Option PartOcrResult :=
  match response.candidates.head? with
  | none => none
  | some candidate =>
    let text_result? : Option String :=
      match candidate.finish_reason with
      | .stop => some candidate.text
      | .other =>
        if candidate.extract_raises then
          none
        else
          some (match candidate.content with
            | some content =>
              match content.parts with
              | p :: _ => p.text.getD ""
              | [] => ""
            | none => "")
    match text_result? with
    | none => none
    | some text_result =>
      some { part_number := part_number
             text := text_result
             char_count := text_result.length
             token_count := response.usage_total_token_count }

/-- The per-chunk loop of `GeminiAsyncOCR.run` (lines 166–199): iterate the
split parts in order with `part_counter` starting at the given value; a
chunk whose call raises, whose response has no candidates, or whose
candidate processing returns `None` is skipped (`continue` after
incrementing `part_counter`); surviving results are appended in order and
their `token_count` added to the running total. -/
def runLoop : List ChunkCall → Nat → List PartOcrResult × Nat
  | [], _ => ([], 0)
  | c :: rest, part_counter =>
    match c with
    | .raises => runLoop rest (part_counter + 1)
    | .returns response =>
      if response.candidates.isEmpty then
        runLoop rest (part_counter + 1)
      else
        match processCandidate response part_counter with
        | some result_obj =>
          let tail := runLoop rest (part_counter + 1)
          (result_obj :: tail.1, result_obj.token_count + tail.2)
        | none => runLoop rest (part_counter + 1)

/-- `GeminiAsyncOCR.run` given the splitter's outcome: `None` when the split
raised (caught at lines 149–157), otherwise the loop's results with
`part_counter` starting at 1. -/
def runFromSplit : SplitOutcome → Option (List PartOcrResult × Nat)
  | .raises => none
  | .parts chunks => some (runLoop chunks 1)

/-- The client configuration: `self._pages_per_split`, read once from the
`PAGES_PER_SPLIT` environment variable in `__init__` and validated to lie in
`1 ..= _MAX_PAGES_PER_SPLIT`. -/
structure GeminiClientCfg where
  pages_per_split : Nat
deriving DecidableEq

/-- `GeminiAsyncOCR.run(self, file, output_prefix="part")`: the split is
performed with `pages_per_part=self.pages_per_split` — the env-configured
bound held by the client, not any per-job value.  The splitter oracle maps
the page bound it is called with to its outcome for the given file. -/
def GeminiAsyncOCR.run (cfg : GeminiClientCfg) (splitter : Nat → SplitOutcome) :
    Option (List PartOcrResult × Nat) :=
  runFromSplit (splitter cfg.pages_per_split)

/-- Parameter names of `GeminiAsyncOCR.run` besides `self`, from its `def`
line (src/GeminiAsyncOCR.py lines 137–139). -/
def runParamNames : List String := ["file", "output_prefix"]

/-- Keyword argument names the worker passes at the call
`gemini.run(file=pdf_stream, pages_per_part=job_doc.pages_per_part)`
(src/worker.py line 61). -/
def workerRunCallKeywords : List String := ["file", "pages_per_part"]

/-- Python call semantics: a call succeeds in binding its arguments only if
every keyword used by the caller names a parameter of the callee; otherwise
the call raises `TypeError` before the body runs. -/
def callKeywordsAccepted (params kwargs : List String) : Bool :=
  kwargs.all fun kw => params.contains kw

/-! ## Worker (src/worker.py) -/

/-- `MAX_RETRIES` (src/worker.py line 18). -/
def MAX_RETRIES : Nat := 3

/-- Outcome of the `gemini.run(...)` call expression at src/worker.py
line 61: the await either raises, or the coroutine returns a value of
`run`'s return type.  (With the shipped signature mismatch, the actual
outcome of this call is always `raises` with a `TypeError`; the outcome is
a parameter so every branch of `process_job` can be examined.) -/
inductive OcrCallOutcome
  | raises (msg : String)
  | returns (r : Option (List PartOcrResult × Nat))
deriving DecidableEq

/-- Environment of one processing attempt: what the external collaborators
do.  `blob_bytes = none` models `blob.download_file` returning a falsy value
(`None` or empty bytes — the code only tests `if not pdf_bytes`); `now` is
the timestamp `datetime.now` yields during the attempt. -/
structure AttemptEnv where
  blob_bytes : Option (List Nat)
  ocr : OcrCallOutcome
  now : Nat
deriving DecidableEq

/-- Observable events of one `process_job` run, in program order:
each `cosmos.collection.replace_one` persist with the snapshot written, the
`blob.download_file` call, and the `gemini.run` call. -/
inductive Event
  | persist (j : Job)
  | blobFetch
  | ocrRun
deriving DecidableEq

/-- Result of one `process_job` run: the returned boolean verdict (`True` =
accept, caller deletes the message; `False` = reject, message left), the
in-memory job object afterwards, and the event trace. -/
structure AttemptResult where
  verdict : Bool
  job : Option Job
  trace : List Event
deriving DecidableEq

/-- `job_doc.status in [JobStatus.COMPLETED, JobStatus.FAILED]`
(src/worker.py line 36). -/
def terminalStatus : JobStatus → Bool
  | .completed => true
  | .failed => true
  | _ => false

/-- The error note appended on a failed attempt (src/worker.py line 78):
`f"Attempt {job_doc.retry_count} failed: {str(e)}"`. -/
def attemptEntry (retry_count : Nat) (cause : String) : String :=
  "Attempt " ++ toString retry_count ++ " failed: " ++ cause

/-- The except-branch of `process_job` (src/worker.py lines 74–81): revert
status to `QUEUED`, append the attempt's error note, stamp `updated_at`. -/
def failAttempt (j : Job) (now : Nat) (cause : String) : Job :=
  { j with status := .queued
           error_log := j.error_log ++ [attemptEntry j.retry_count cause]
           updated_at := now }

/-- The snapshot persisted at src/worker.py lines 50–53 just before the OCR
attempt: status `PROCESSING`, retry count incremented. -/
def jProcessing (job : Job) (now : Nat) : Job :=
  { job with status := .processing
             retry_count := job.retry_count + 1
             updated_at := now }

/-- The snapshot persisted when the retry budget is exhausted
(src/worker.py lines 40–45): forced `FAILED` with a terminal error note. -/
def jExhausted (job : Job) (now : Nat) : Job :=
  { job with status := .failed
             error_log := job.error_log ++
               ["Processing failed after " ++ toString MAX_RETRIES ++ " retries."]
             updated_at := now }

/-- The `try` body of `process_job` (src/worker.py lines 49–81) after the
initial `PROCESSING` persist: blob download, OCR call, success persist; each
exception (`FileNotFoundError` from a falsy blob download, the OCR call
raising, `RuntimeError` on a `None` OCR result) is routed to the
except-branch `failAttempt` followed by its persist. -/
def attemptBody (env : AttemptEnv) (job_doc : Job) : AttemptResult :=
  let j1 := jProcessing job_doc env.now
  match env.blob_bytes with
  | none =>
    let j2 := failAttempt j1 env.now
      ("PDF for job " ++ job_doc.id ++ " not found in blob storage.")
    { verdict := false, job := some j2
      trace := [.persist j1, .blobFetch, .persist j2] }
  | some _pdf_bytes =>
    match env.ocr with
    | .raises msg =>
      let j2 := failAttempt j1 env.now msg
      { verdict := false, job := some j2
        trace := [.persist j1, .blobFetch, .ocrRun, .persist j2] }
    | .returns none =>
      let j2 := failAttempt j1 env.now
        "Gemini OCR process returned None, indicating a failure."
      { verdict := false, job := some j2
        trace := [.persist j1, .blobFetch, .ocrRun, .persist j2] }
    | .returns (some ocr_result) =>
      let j2 := { j1 with
                  status := .completed
                  final_text := .pair ocr_result.1 ocr_result.2
                  updated_at := env.now }
      { verdict := true, job := some j2
        trace := [.persist j1, .blobFetch, .ocrRun, .persist j2] }

/-- `process_job(job_id, cosmos, blob, gemini)` (src/worker.py lines 21–81),
run against the job record loaded for the message's id (`none` = not found)
and the attempt environment.  Follows the source branch for branch: not
found → reject with no side effects; terminal status → accept untouched;
exhausted retry budget → forced `FAILED`, accept; otherwise the guarded
attempt body. -/
def process_job (env : AttemptEnv) (job? : Option Job) : AttemptResult :=
  match job? with
  | none => { verdict := false, job := none, trace := [] }
  | some job_doc =>
    if terminalStatus job_doc.status then
      { verdict := true, job := some job_doc, trace := [] }
    else if job_doc.retry_count ≥ MAX_RETRIES then
      let j := jExhausted job_doc env.now
      { verdict := true, job := some j, trace := [.persist j] }
    else
      attemptBody env job_doc

/-- The snapshots passed to `replace_one`, in order, of a trace. -/
def persistsOf : List Event → List Job
  | [] => []
  | .persist j :: rest => j :: persistsOf rest
  | _ :: rest => persistsOf rest

/-- The durable job record after an attempt: the last persisted snapshot,
or the prior record when nothing was persisted. -/
def storedAfter (job : Job) (tr : List Event) : Job :=
  ((persistsOf tr).getLast?).getD job

/-! ## Worker main loop body (src/worker.py lines 96–107) -/

/-- Observable actions of one iteration of `main`'s polling loop. -/
inductive WorkerAction
  | processed (job_id : String)
  | deleted (job_id : String)
  | slept
deriving DecidableEq

/-- One iteration of the `main` loop: if a message was received, run
`process_job` on its content and delete the message iff it returned `True`;
otherwise sleep. -/
def mainIter (message? : Option String) (store : String → Option Job)
    (env : AttemptEnv) : List WorkerAction :=
  match message? with
  | none => [.slept]
  | some job_id =>
    if (process_job env (store job_id)).verdict then
      [.processed job_id, .deleted job_id]
    else
      [.processed job_id]

/-! ## StorageQueueService.delete_message (src/queue_service.py 103–124) -/

/-- What the underlying `queue_client.delete_message` call does. -/
inductive AzureDeleteOutcome
  | ok
  | azureError (error_code : String)
  | otherRaise (e : String)
deriving DecidableEq

/-- Result of a Python call: normal return or a propagated exception. -/
inductive PyResult (α : Type)
  | ok (a : α)
  | raised (e : String)
deriving DecidableEq

/-- `StorageQueueService.delete_message`: raises `RuntimeError` when the
queue client was never initialized; otherwise performs the delete, absorbing
an `AzureError` whose `error_code` is `"MessageNotFound"` (warning logged,
normal return) and re-raising every other `AzureError`; exceptions that are
not `AzureError` are not caught. -/
def delete_message (initialized : Bool) (outcome : AzureDeleteOutcome) :
    PyResult Unit :=
  if initialized then
    match outcome with
    | .ok => .ok ()
    | .azureError code =>
      if code = "MessageNotFound" then .ok ()
      else .raised ("AzureError: " ++ code)
    | .otherRaise e => .raised e
  else
    .raised "RuntimeError: Queue client has not been initialized. Call initialize() first."

/-! ## Spec-side definition for the aggregation refinement -/

/-- From the spec's words (§4.1 Aggregation), for comparison with what the
code persists: final text = newline-joined `text` of the non-dropped chunks
in ascending part order. -/
def specFinalTextJoin (results : List PartOcrResult) : String :=
  String.intercalate "\n" (results.map fun r => r.text)

/-! ## Derived per-chunk views of run's loop body -/

/-- A chunk is dropped by `run`'s loop exactly when its call raises, its
response has no candidates, or `_process_candidate` hits the salvage
`except` path (abnormal finish reason and the partial-text retrieval
raises). -/
def chunkDropped : ChunkCall → Bool
  | .raises => true
  | .returns r =>
    match r.candidates with
    | [] => true
    | c :: _ =>
      match c.finish_reason with
      | .stop => false
      | .other => c.extract_raises

/-- The surviving result (if any) that `run`'s loop body produces for one
chunk processed at slot `pn`: `none` for a raising call, a candidate-less
response, or a dropped candidate. -/
def chunkSurvivor (c : ChunkCall) (pn : Nat) : Option PartOcrResult :=
  match c with
  | .raises => none
  | .returns r => if r.candidates.isEmpty then none else processCandidate r pn

/-! ## Concrete scenario inputs -/

/-- A fresh job record as the API layer creates it: `QUEUED`, no retries,
empty error log. -/
def job0 : Job :=
  { id := "j1", status := .queued, retry_count := 0, pages_per_part := 7
    error_log := [], final_text := .nullV, updated_at := 0 }

/-- An attempt environment whose blob download fails (falsy result). -/
def envFail : AttemptEnv := { blob_bytes := none, ocr := .raises "x", now := 5 }

/-- The durable job record after one dequeue in the blob-failing
environment. -/
def dequeueFailJob (j : Job) : Job :=
  storedAfter j (process_job envFail (some j)).trace

/-- The durable job record after `n` dequeues in the blob-failing
environment, starting from the fresh job. -/
def afterN : Nat → Job
  | 0 => job0
  | n + 1 => dequeueFailJob (afterN n)

/-- A surviving chunk result used by the concrete scenarios. -/
def r1 : PartOcrResult :=
  { part_number := 1, text := "hello", char_count := 5, token_count := 7 }

/-- An attempt environment where the blob download succeeds and the OCR call
returns a one-survivor result list with 7 total tokens. -/
def envOk : AttemptEnv :=
  { blob_bytes := some [1], ocr := .returns (some ([r1], 7)), now := 5 }

/-- A response whose single candidate finished normally with text `"t"`. -/
def respOkEx : GenResponse :=
  { candidates := [{ finish_reason := .stop, content := none
                     text := "t", extract_raises := false }]
    usage_total_token_count := 5 }

/-- A one-chunk split used as concrete input for the numbering claims. -/
def chunksEx : List ChunkCall := [.returns respOkEx]

/-- The surviving result produced for `chunksEx`. -/
def rEx : PartOcrResult :=
  { part_number := 1, text := "t", char_count := 1, token_count := 5 }

/-! ## Theorems -/

/-- C1: on a successful OCR attempt the job is persisted as `COMPLETED`,
but `final_text` receives the raw `(results, total_tokens)` tuple returned
by `run` (worker.py line 69), not the spec's newline-join of the non-dropped
chunk texts: no join is performed anywhere in the code. -/
theorem C1_success_stores_tuple_not_join :
    (process_job envOk (some job0)).verdict = true ∧
    (storedAfter job0 (process_job envOk (some job0)).trace).status = .completed ∧
    (storedAfter job0 (process_job envOk (some job0)).trace).final_text =
      .pair [r1] 7 ∧
    FinalTextVal.pair [r1] 7 ≠ .str (specFinalTextJoin [r1]) := by
  decide

/-- C2: the worker's call `gemini.run(file=..., pages_per_part=...)`
(worker.py line 61) uses a keyword that is not among `run`'s parameters, so
under Python call semantics it raises `TypeError`; and `run` performs the
split with the env-configured `self.pages_per_split`, not any per-job
value. -/
theorem C2_worker_call_keyword_rejected :
    callKeywordsAccepted runParamNames workerRunCallKeywords = false ∧
    ∀ cfg splitter, GeminiAsyncOCR.run cfg splitter =
      runFromSplit (splitter cfg.pages_per_split) :=
  ⟨by decide, fun _ _ => rfl⟩

/-- C4 (counterexample): with the blob fetch failing on every attempt and
`MAX_RETRIES = 3`, after the third failing processing attempt the job's
status is `QUEUED`, not `FAILED` as the claim states (the forced `FAILED`
only happens on the next, fourth dequeue). -/
theorem C4_third_attempt_still_queued :
    (afterN 3).status = .queued ∧
    ¬ (afterN 3).status = .failed ∧
    (afterN 3).error_log.length = 3 := by
  decide

/-- C4 (amended): with the blob fetch failing on every attempt, after the
first dequeue the job is `QUEUED` with `retryCount = 1` and one error entry;
after the third failing attempt it is `QUEUED` with `retryCount = 3` and
three entries; the fourth dequeue forces `FAILED` with a fourth terminal
entry and signals accept. -/
theorem C4_retry_exhaustion_trace :
    (afterN 1).status = .queued ∧
    (afterN 1).retry_count = 1 ∧
    (afterN 1).error_log.length = 1 ∧
    (afterN 3).status = .queued ∧
    (afterN 3).retry_count = 3 ∧
    (afterN 3).error_log.length = 3 ∧
    (afterN 4).status = .failed ∧
    (afterN 4).error_log.length = 4 ∧
    (process_job envFail (some (afterN 3))).verdict = true := by
  decide

/-- C10: `delete_message` absorbs an `AzureError` whose code is
`MessageNotFound` (normal return), and re-raises every other Azure
error. -/
theorem C10_delete_message_absorbs_not_found :
    delete_message true (.azureError "MessageNotFound") = .ok () ∧
    ∀ code, code ≠ "MessageNotFound" →
      delete_message true (.azureError code) =
        .raised ("AzureError: " ++ code) := by
  refine ⟨by decide, fun code h => ?_⟩
  simp [delete_message, h]

/-- Witness for C10 at a concrete non-`MessageNotFound` Azure error. -/
theorem C10_delete_message_absorbs_not_found_witness :
    delete_message true (.azureError "InternalError") =
      .raised ("AzureError: " ++ "InternalError") :=
  C10_delete_message_absorbs_not_found.2 "InternalError" (by decide)

/-! ### Branch lemmas for `process_job` -/

/-- Dispatch: terminal job. -/
theorem process_job_terminal (env : AttemptEnv) (job : Job)
    (ht : terminalStatus job.status = true) :
    process_job env (some job) =
      { verdict := true, job := some job, trace := [] } := by
  simp [process_job, ht]

/-- Dispatch: exhausted retry budget. -/
theorem process_job_exhausted (env : AttemptEnv) (job : Job)
    (ht : terminalStatus job.status = false)
    (hr : MAX_RETRIES ≤ job.retry_count) :
    process_job env (some job) =
      { verdict := true, job := some (jExhausted job env.now)
        trace := [.persist (jExhausted job env.now)] } := by
  simp [process_job, ht, hr]

/-- Dispatch: a real processing attempt. -/
theorem process_job_attempt (env : AttemptEnv) (job : Job)
    (ht : terminalStatus job.status = false)
    (hr : job.retry_count < MAX_RETRIES) :
    process_job env (some job) = attemptBody env job := by
  simp [process_job, ht, Nat.not_le.mpr hr]

/-- Every snapshot persisted by the attempt body carries the incremented
retry count. -/
theorem attemptBody_persists_retry (env : AttemptEnv) (job : Job) :
    ∀ j ∈ persistsOf (attemptBody env job).trace,
      j.retry_count = job.retry_count + 1 := by
  cases hb : env.blob_bytes with
  | none => simp [attemptBody, hb, persistsOf, failAttempt, jProcessing]
  | some bs =>
    cases ho : env.ocr with
    | raises m => simp [attemptBody, hb, ho, persistsOf, failAttempt, jProcessing]
    | returns r? =>
      cases r? with
      | none => simp [attemptBody, hb, ho, persistsOf, failAttempt, jProcessing]
      | some res => simp [attemptBody, hb, ho, persistsOf, jProcessing]

/-- The first event of the attempt body is the persist of the
`PROCESSING`/incremented snapshot (before the blob fetch and the OCR
call). -/
theorem attemptBody_head (env : AttemptEnv) (job : Job) :
    (attemptBody env job).trace.head? =
      some (.persist (jProcessing job env.now)) := by
  cases hb : env.blob_bytes with
  | none => simp [attemptBody, hb]
  | some bs =>
    cases ho : env.ocr with
    | raises m => simp [attemptBody, hb, ho]
    | returns r? => cases r? <;> simp [attemptBody, hb, ho]

/-- The in-memory job after the attempt body carries the incremented retry
count. -/
theorem attemptBody_job_retry (env : AttemptEnv) (job : Job) :
    ∀ j, (attemptBody env job).job = some j →
      j.retry_count = job.retry_count + 1 := by
  intro j
  cases hb : env.blob_bytes with
  | none =>
    simp [attemptBody, hb, failAttempt, jProcessing]
    intro h; simp [← h]
  | some bs =>
    cases ho : env.ocr with
    | raises m =>
      simp [attemptBody, hb, ho, failAttempt, jProcessing]
      intro h; simp [← h]
    | returns r? =>
      cases r? with
      | none =>
        simp [attemptBody, hb, ho, failAttempt, jProcessing]
        intro h; simp [← h]
      | some res =>
        simp [attemptBody, hb, ho, jProcessing]
        intro h; simp [← h]

/-- On any of the three failure causes (falsy blob download, OCR call
raising, OCR returning the `None` sentinel), the attempt body rejects and
both persists and keeps in memory the `failAttempt` record: status back to
`QUEUED` with exactly one appended error note. -/
theorem attemptBody_failure (env : AttemptEnv) (job : Job)
    (hf : env.blob_bytes = none ∨ (∃ m, env.ocr = .raises m) ∨
      env.ocr = .returns none) :
    (attemptBody env job).verdict = false ∧
    ∃ c, (attemptBody env job).job =
        some (failAttempt (jProcessing job env.now) env.now c) ∧
      (persistsOf (attemptBody env job).trace).getLast? =
        some (failAttempt (jProcessing job env.now) env.now c) := by
  cases hb : env.blob_bytes with
  | none =>
    refine ⟨by simp [attemptBody, hb],
      ⟨"PDF for job " ++ job.id ++ " not found in blob storage.",
        by simp [attemptBody, hb], by simp [attemptBody, hb, persistsOf]⟩⟩
  | some bs =>
    cases ho : env.ocr with
    | raises m =>
      refine ⟨by simp [attemptBody, hb, ho],
        ⟨m, by simp [attemptBody, hb, ho],
          by simp [attemptBody, hb, ho, persistsOf]⟩⟩
    | returns r? =>
      cases r? with
      | none =>
        refine ⟨by simp [attemptBody, hb, ho],
          ⟨"Gemini OCR process returned None, indicating a failure.",
            by simp [attemptBody, hb, ho],
            by simp [attemptBody, hb, ho, persistsOf]⟩⟩
      | some res =>
        exfalso
        rcases hf with h | ⟨m, h⟩ | h
        · rw [h] at hb; cases hb
        · rw [h] at ho; cases ho
        · rw [h] at ho; cases ho

/-- C3: every persisted snapshot and the resulting in-memory record carry a
retry count at least the prior one (never decremented); on a real attempt
the incremented count is the first thing persisted (before the blob fetch
and the OCR call) and every persist of the attempt carries exactly the
incremented count; once `retryCount ≥ MAX_RETRIES`, the next dequeue of a
non-terminal job persists only the forced-`FAILED` record, signals accept,
and performs no blob fetch and no OCR call. -/
theorem C3_retry_accounting (env : AttemptEnv) (job : Job) :
    (∀ j ∈ persistsOf (process_job env (some job)).trace,
      job.retry_count ≤ j.retry_count) ∧
    (∀ j, (process_job env (some job)).job = some j →
      job.retry_count ≤ j.retry_count) ∧
    (terminalStatus job.status = false → job.retry_count < MAX_RETRIES →
      (process_job env (some job)).trace.head? =
        some (.persist (jProcessing job env.now)) ∧
      ∀ j ∈ persistsOf (process_job env (some job)).trace,
        j.retry_count = job.retry_count + 1) ∧
    (terminalStatus job.status = false → MAX_RETRIES ≤ job.retry_count →
      (process_job env (some job)).verdict = true ∧
      (process_job env (some job)).trace =
        [.persist (jExhausted job env.now)] ∧
      (jExhausted job env.now).status = .failed ∧
      Event.blobFetch ∉ (process_job env (some job)).trace ∧
      Event.ocrRun ∉ (process_job env (some job)).trace) := by
  by_cases ht : terminalStatus job.status = true
  · rw [process_job_terminal env job ht]
    refine ⟨by simp [persistsOf], ?_, ?_, ?_⟩
    · intro j h
      simp only [Option.some.injEq] at h
      subst h; exact Nat.le_refl _
    · intro hf; rw [ht] at hf; cases hf
    · intro hf; rw [ht] at hf; cases hf
  · have ht' : terminalStatus job.status = false := by
      cases h : terminalStatus job.status
      · rfl
      · exact absurd h ht
    by_cases hr : MAX_RETRIES ≤ job.retry_count
    · rw [process_job_exhausted env job ht' hr]
      refine ⟨by simp [persistsOf, jExhausted], ?_, ?_, ?_⟩
      · intro j h
        simp only [Option.some.injEq] at h
        subst h; simp [jExhausted]
      · intro _ hlt; omega
      · intro _ _
        exact ⟨rfl, rfl, by simp [jExhausted], by simp, by simp⟩
    · rw [process_job_attempt env job ht' (Nat.not_le.mp hr)]
      refine ⟨?_, ?_, ?_, ?_⟩
      · intro j hj
        have := attemptBody_persists_retry env job j hj
        omega
      · intro j hj
        have := attemptBody_job_retry env job j hj
        omega
      · intro _ _
        exact ⟨attemptBody_head env job, attemptBody_persists_retry env job⟩
      · intro _ hge; omega

/-- Witness for C3: the attempt branch at a fresh job and the exhausted
branch at a job with three prior attempts, both in the blob-failing
environment. -/
theorem C3_retry_accounting_witness :
    (process_job envFail (some job0)).trace.head? =
      some (.persist (jProcessing job0 envFail.now)) ∧
    (process_job envFail (some { job0 with retry_count := 3 })).trace =
      [.persist (jExhausted { job0 with retry_count := 3 } envFail.now)] :=
  ⟨((C3_retry_accounting envFail job0).2.2.1 (by decide) (by decide)).1,
   ((C3_retry_accounting envFail
      { job0 with retry_count := 3 }).2.2.2 (by decide) (by decide)).2.1⟩

/-- C5: dequeuing a job whose status is `COMPLETED` or `FAILED` signals
accept and leaves the record untouched: nothing is persisted, no
collaborator is called, and the in-memory job is returned unchanged. -/
theorem C5_terminal_dequeue_no_mutation (env : AttemptEnv) (job : Job)
    (ht : job.status = .completed ∨ job.status = .failed) :
    process_job env (some job) =
      { verdict := true, job := some job, trace := [] } := by
  apply process_job_terminal
  rcases ht with h | h <;> simp [terminalStatus, h]

/-- Witness for C5 at a concrete completed job. -/
theorem C5_terminal_dequeue_no_mutation_witness :
    process_job envFail (some { job0 with status := .completed }) =
      { verdict := true, job := some { job0 with status := .completed }
        trace := [] } :=
  C5_terminal_dequeue_no_mutation envFail _ (Or.inl rfl)

/-- C6: on a real attempt whose blob fetch fails, whose OCR call raises, or
whose OCR run returns the `None` sentinel, `process_job` signals reject and
the final persisted (and in-memory) record is back to `QUEUED` with exactly
one appended error entry naming the attempt number and the cause. -/
theorem C6_transient_failure_requeues (env : AttemptEnv) (job : Job)
    (ht : terminalStatus job.status = false)
    (hr : job.retry_count < MAX_RETRIES)
    (hf : env.blob_bytes = none ∨ (∃ m, env.ocr = .raises m) ∨
      env.ocr = .returns none) :
    (process_job env (some job)).verdict = false ∧
    ∃ j2, (process_job env (some job)).job = some j2 ∧
      (persistsOf (process_job env (some job)).trace).getLast? = some j2 ∧
      j2.status = .queued ∧
      ∃ c, j2.error_log =
        job.error_log ++ [attemptEntry (job.retry_count + 1) c] := by
  rw [process_job_attempt env job ht hr]
  obtain ⟨hv, c, hjob, hlast⟩ := attemptBody_failure env job hf
  refine ⟨hv, failAttempt (jProcessing job env.now) env.now c, hjob, hlast,
    by simp [failAttempt], ⟨c, by simp [failAttempt, jProcessing]⟩⟩

/-- Witness for C6 at the fresh job in the blob-failing environment. -/
theorem C6_transient_failure_requeues_witness :
    (process_job envFail (some job0)).verdict = false :=
  (C6_transient_failure_requeues envFail job0 (by decide) (by decide)
    (Or.inl rfl)).1

/-- C9: in one iteration of the worker loop, the dequeued message is
deleted iff `process_job` returned `True`; with no message nothing is
deleted; and when the job record is not found (reject path) the message is
left undeleted. -/
theorem C9_delete_iff_accept (msg : String) (store : String → Option Job)
    (env : AttemptEnv) :
    (WorkerAction.deleted msg ∈ mainIter (some msg) store env ↔
      (process_job env (store msg)).verdict = true) ∧
    (∀ i, WorkerAction.deleted i ∉ mainIter none store env) ∧
    (store msg = none →
      WorkerAction.deleted msg ∉ mainIter (some msg) store env) := by
  refine ⟨?_, ?_, ?_⟩
  · unfold mainIter
    cases hv : (process_job env (store msg)).verdict <;> simp [hv]
  · intro i; simp [mainIter]
  · intro h
    simp [mainIter, h, process_job]

/-- Witness for C9: the not-found reject path leaves the message
undeleted. -/
theorem C9_delete_iff_accept_witness :
    WorkerAction.deleted "j1" ∉ mainIter (some "j1") (fun _ => none) envFail :=
  (C9_delete_iff_accept "j1" (fun _ => none) envFail).2.2 rfl

/-! ### Lemmas about run's chunk loop -/

/-- A dropped chunk contributes nothing: the loop proceeds to the remaining
chunks with the next slot number, without raising. -/
theorem runLoop_dropped (c : ChunkCall) (rest : List ChunkCall) (k : Nat)
    (hd : chunkDropped c = true) :
    runLoop (c :: rest) k = runLoop rest (k + 1) := by
  cases c with
  | raises => rfl
  | returns r =>
    cases hc : r.candidates with
    | nil => simp [runLoop, hc]
    | cons cand cs =>
      simp only [chunkDropped, hc] at hd
      cases hf : cand.finish_reason with
      | stop => simp [hf] at hd
      | other =>
        simp only [hf] at hd
        have hp : processCandidate r k = none := by
          simp [processCandidate, hc, hf, hd]
        simp [runLoop, hc, hp]

/-- The loop's running token total equals the sum of the surviving results'
token counts. -/
theorem runLoop_tokens_sum (chunks : List ChunkCall) (k : Nat) :
    (runLoop chunks k).2 =
      ((runLoop chunks k).1.map fun r => r.token_count).sum := by
  induction chunks generalizing k with
  | nil => simp [runLoop]
  | cons c rest ih =>
    cases c with
    | raises => simpa [runLoop] using ih (k + 1)
    | returns r =>
      cases hc : r.candidates.isEmpty with
      | true => simp only [runLoop, hc, if_true]; exact ih (k + 1)
      | false =>
        cases hp : processCandidate r k with
        | none => simp [runLoop, hc, hp]; exact ih (k + 1)
        | some res => simp [runLoop, hc, hp, ih (k + 1)]

/-- `processCandidate` stamps the result with the slot number it was given. -/
theorem processCandidate_part_number (resp : GenResponse) (pn : Nat)
    (r : PartOcrResult) (h : processCandidate resp pn = some r) :
    r.part_number = pn := by
  unfold processCandidate at h
  split at h
  · cases h
  · rename_i cand heq
    cases hf : cand.finish_reason
    · simp only [hf] at h
      injection h with h2
      subst h2
      rfl
    · simp only [hf] at h
      by_cases he : cand.extract_raises = true
      · rw [if_pos he] at h
        cases h
      · rw [if_neg he] at h
        injection h with h2
        subst h2
        rfl

/-- `chunkSurvivor` stamps the result with the slot number it was given. -/
theorem chunkSurvivor_part_number (c : ChunkCall) (pn : Nat)
    (r : PartOcrResult) (h : chunkSurvivor c pn = some r) :
    r.part_number = pn := by
  cases c with
  | raises => cases h
  | returns resp =>
    have h' : (if resp.candidates.isEmpty = true then none
        else processCandidate resp pn) = some r := h
    by_cases hc : resp.candidates.isEmpty = true
    · rw [if_pos hc] at h'; cases h'
    · rw [if_neg hc] at h'
      exact processCandidate_part_number resp pn r h'

/-- The loop body for one chunk, phrased through `chunkSurvivor`. -/
theorem runLoop_cons_survivor (c : ChunkCall) (rest : List ChunkCall)
    (k : Nat) :
    runLoop (c :: rest) k =
      match chunkSurvivor c k with
      | some r => (r :: (runLoop rest (k + 1)).1,
                   r.token_count + (runLoop rest (k + 1)).2)
      | none => runLoop rest (k + 1) := by
  cases c with
  | raises => rfl
  | returns resp =>
    cases hc : resp.candidates.isEmpty with
    | true => simp [runLoop, chunkSurvivor, hc]
    | false =>
      cases hp : processCandidate resp k with
      | none => simp [runLoop, chunkSurvivor, hc, hp]
      | some res => simp [runLoop, chunkSurvivor, hc, hp]

/-- Every surviving result comes from the chunk at its own slot:
its `part_number` is the slot counter plus the chunk's index. -/
theorem runLoop_mem (chunks : List ChunkCall) (k : Nat) (r : PartOcrResult)
    (hr : r ∈ (runLoop chunks k).1) :
    ∃ i, ∃ h : i < chunks.length,
      r.part_number = k + i ∧
      chunkSurvivor (chunks.get ⟨i, h⟩) (k + i) = some r := by
  induction chunks generalizing k with
  | nil => simp [runLoop] at hr
  | cons c rest ih =>
    rw [runLoop_cons_survivor] at hr
    cases hs : chunkSurvivor c k with
    | none =>
      rw [hs] at hr
      obtain ⟨i, hi, hpn, hsv⟩ := ih (k + 1) hr
      refine ⟨i + 1, Nat.succ_lt_succ hi, by omega, ?_⟩
      have hik : k + (i + 1) = k + 1 + i := by omega
      rw [hik]
      exact hsv
    | some r0 =>
      rw [hs] at hr
      replace hr : r = r0 ∨ r ∈ (runLoop rest (k + 1)).1 :=
        List.mem_cons.mp hr
      rcases hr with rfl | hr
      · refine ⟨0, Nat.succ_pos _, ?_, ?_⟩
        · have := chunkSurvivor_part_number c k r hs
          omega
        · exact hs
      · obtain ⟨i, hi, hpn, hsv⟩ := ih (k + 1) hr
        refine ⟨i + 1, Nat.succ_lt_succ hi, by omega, ?_⟩
        have hik : k + (i + 1) = k + 1 + i := by omega
        rw [hik]
        exact hsv

/-- Every surviving result's slot number is at least the starting counter. -/
theorem runLoop_part_number_lb (chunks : List ChunkCall) (k : Nat)
    (r : PartOcrResult) (hr : r ∈ (runLoop chunks k).1) :
    k ≤ r.part_number := by
  obtain ⟨i, hi, hpn, _⟩ := runLoop_mem chunks k r hr
  omega

/-- The surviving results' part numbers are strictly increasing. -/
theorem runLoop_part_numbers_sorted (chunks : List ChunkCall) (k : Nat) :
    ((runLoop chunks k).1.map fun r => r.part_number).Pairwise (· < ·) := by
  induction chunks generalizing k with
  | nil => simp [runLoop]
  | cons c rest ih =>
    rw [runLoop_cons_survivor]
    cases hs : chunkSurvivor c k with
    | none => exact ih (k + 1)
    | some r0 =>
      refine List.Pairwise.cons ?_ (ih (k + 1))
      intro b hb
      simp only [List.mem_map] at hb
      obtain ⟨r, hrmem, rfl⟩ := hb
      have h1 := runLoop_part_number_lb rest (k + 1) r hrmem
      have h2 := chunkSurvivor_part_number c k r0 hs
      show r0.part_number < r.part_number
      omega

/-- C7: `run` returns the failure sentinel exactly when the split raised;
for any list of chunk outcomes it returns a (possibly empty) result list
with a token total equal to the sum of the surviving results' token counts;
and any faulty chunk (call raising, no candidates, salvage failing) is
dropped with the loop continuing on the rest. -/
theorem C7_run_failure_semantics :
    runFromSplit .raises = none ∧
    (∀ chunks, ∃ results tokens,
      runFromSplit (.parts chunks) = some (results, tokens) ∧
      tokens = (results.map fun r => r.token_count).sum) ∧
    (∀ c rest k, chunkDropped c = true →
      runLoop (c :: rest) k = runLoop rest (k + 1)) := by
  refine ⟨rfl, ?_, ?_⟩
  · intro chunks
    exact ⟨(runLoop chunks 1).1, (runLoop chunks 1).2, rfl,
      runLoop_tokens_sum chunks 1⟩
  · intro c rest k hd
    exact runLoop_dropped c rest k hd

/-- Witness for C7: a raising chunk at the head is dropped and the loop
continues. -/
theorem C7_run_failure_semantics_witness :
    runLoop [ChunkCall.raises] 1 = runLoop [] 2 :=
  C7_run_failure_semantics.2.2 .raises [] 1 rfl

/-- C8: every surviving result of `run`'s loop (started at slot 1) has
`part_number` equal to one plus the index of its chunk in split order —
dropped chunks still consume their slot — and the surviving results are in
strictly ascending `part_number` order. -/
theorem C8_part_numbering (chunks : List ChunkCall) :
    (∀ r ∈ (runLoop chunks 1).1,
      ∃ i, ∃ h : i < chunks.length,
        r.part_number = i + 1 ∧
        chunkSurvivor (chunks.get ⟨i, h⟩) (i + 1) = some r) ∧
    ((runLoop chunks 1).1.map fun r => r.part_number).Pairwise (· < ·) := by
  refine ⟨?_, runLoop_part_numbers_sorted chunks 1⟩
  intro r hr
  obtain ⟨i, hi, hpn, hsv⟩ := runLoop_mem chunks 1 r hr
  refine ⟨i, hi, by omega, ?_⟩
  have hik : 1 + i = i + 1 := by omega
  rw [hik] at hsv
  exact hsv

/-- Witness for C8 at the concrete one-chunk split. -/
theorem C8_part_numbering_witness :
    ∃ i, ∃ h : i < chunksEx.length,
      rEx.part_number = i + 1 ∧
      chunkSurvivor (chunksEx.get ⟨i, h⟩) (i + 1) = some rEx :=
  (C8_part_numbering chunksEx).1 rEx (by decide)

end VdiDump
